import Mathlib

/-!
Verification of the ddcutil protocol-timing and I/O-strategy core:
a shallow embedding of src/base/tuned_sleep.c and the i2c strategy
dispatcher (i2c_strategy_dispatcher.c / .h), together with theorems
checking the natural-language specification against the code.

C doubles are modelled as exact rational numbers; the C conversion
from double to int truncates toward zero and is modelled explicitly.
The uint64 nanosecond clock is modelled as Nat with reduction mod 2^64
where the code performs uint64 arithmetic.
-/

namespace Ddcutil

/-- IO modes reachable in tuned_sleep_with_trace (enum DDCA_IO_Mode):
the function asserts that the mode is DDCA_IO_USB whenever it is not
DDCA_IO_I2C, so only these two values are relevant. -/
inductive DDCA_IO_Mode
  | DDCA_IO_I2C
  | DDCA_IO_USB
deriving DecidableEq, Repr

/-- The closed enumeration Sleep_Event_Type of protocol moments that
require a wait, as consumed by the switch in tuned_sleep_with_trace. -/
inductive Sleep_Event_Type
  | SE_WRITE_TO_READ
  | SE_POST_WRITE
  | SE_POST_READ
  | SE_POST_SAVE_SETTINGS
  | SE_MULTI_PART_WRITE_TO_READ
  | SE_AFTER_EACH_CAP_TABLE_SEGMENT
  | SE_POST_CAP_TABLE_COMMAND
  | SE_DDC_NULL
  | SE_PRE_MULTI_PART_READ
  | SE_SPECIAL
deriving DecidableEq, Repr

/-- The io path of a display reference; only the io mode is consulted
by the code under verification. -/
structure DDCA_IO_Path where
  io_mode : DDCA_IO_Mode
deriving DecidableEq, Repr

/-- Display reference (struct Display_Ref): process-wide record owning
the next_i2c_io_after deferred-sleep deadline, a uint64 count of
nanoseconds since an arbitrary epoch. -/
structure Display_Ref where
  io_path : DDCA_IO_Path
  next_i2c_io_after : Nat
deriving DecidableEq, Repr

/-- Display handle (struct Display_Handle): links to its display
reference, where the deferred deadline is stored. -/
structure Display_Handle where
  dref : Display_Ref
deriving DecidableEq, Repr

/-- Modelled from the spec: base/parms.h is not in src. The spec delay
table gives 50 ms for the write-to-read turnaround. -/
def DDC_TIMEOUT_MILLIS_DEFAULT : Int := 50

/-- Modelled from the spec: base/parms.h is not in src. The spec delay
table gives 50 ms for post normal write and post read. -/
def DDC_TIMEOUT_MILLIS_POST_NORMAL_COMMAND : Int := 50

/-- Modelled from the spec: base/parms.h is not in src. The spec delay
table gives 200 ms for post save-settings. -/
def DDC_TIMEOUT_MILLIS_POST_SAVE_SETTINGS : Int := 200

/-- Modelled from the spec: base/parms.h is not in src. The spec delay
table gives 50 ms for the wait between capability-table fragments. -/
def DDC_TIMEOUT_MILLIS_BETWEEN_CAP_TABLE_FRAGMENTS : Int := 50

/-- Modelled from the spec: base/parms.h is not in src. The spec delay
table gives 50 ms for post capability-table command. -/
def DDC_TIMEOUT_MILLIS_POST_CAP_TABLE_COMMAND : Int := 50

/-- Modelled from the spec: base/parms.h is not in src, and the spec
gives no numeric value for the null-response backoff increment, only
that it is a fixed constant. No claim depends on this value. -/
def DDC_TIMEOUT_MILLIS_NULL_RESPONSE_INCREMENT : Int := 100

/-- Per-thread sleep state (Per_Thread_Data), as read by
tuned_sleep_with_trace. Modelled from the spec where
base/thread_sleep_data.c is not in src: tsd_get_sleep_multiplier_factor
returns the global sleep multiplier and tsd_get_sleep_multiplier_ct the
per-thread retry multiplier count. cur_sleep_adjustment_factor holds
the dynamic adjustment factor as refreshed by
dsa_update_adjustment_factor (base/dynamic_sleep.c, also not in src:
the estimator is opaque, so the field denotes its post-refresh value). -/
structure Per_Thread_Data where
  dynamic_sleep_enabled : Bool
  cur_sleep_adjustment_factor : ℚ
  sleep_multiplier_factor : ℚ
  sleep_multiplier_ct : Int
deriving DecidableEq, Repr

/-- C conversion from double to int truncates toward zero: the reduced
fraction num/den is divided with truncating (T-) division. -/
def c_trunc_to_int (q : ℚ) : Int :=
  Int.tdiv q.num (q.den : Int)

/-- Fatal terminations of a call path: a failed assert, or the
PROGRAM_LOGIC_ERROR macro. Modelled from the spec where base/core.c is
not in src: both abort rather than recover (spec section 7 classes both
as fatal programming-logic errors). -/
inductive FatalErr
  | assertFailed
  | programLogicError
deriving DecidableEq, Repr

/-- Observable outcome of a successful tuned_sleep_with_trace call: the
resulting next_i2c_io_after of the display reference and, when an
immediate blocking sleep was performed via sleep_millis_with_trace, the
number of milliseconds slept. -/
structure SleepOutcome where
  next_i2c_io_after : Nat
  slept_millis : Option Int
deriving DecidableEq, Repr

/-- Modulus of uint64 arithmetic. -/
def UINT64_MOD : Nat := 2 ^ 64

/-- The initial value of the static variable deferred_sleep_enabled in
tuned_sleep.c line 38. -/
def deferred_sleep_enabled_init : Bool := false

/-- enable_deferred_sleep: returns the old setting and installs the new
one (global state passed explicitly). -/
def enable_deferred_sleep (deferred_sleep_enabled : Bool) (onoff : Bool) :
    Bool × Bool :=
  (deferred_sleep_enabled, onoff)

/-- is_deferred_sleep_enabled: reads the global flag. -/
def is_deferred_sleep_enabled (deferred_sleep_enabled : Bool) : Bool :=
  deferred_sleep_enabled

/-- The assert at tuned_sleep.c lines 109-110:
assert( (event_type != SE_SPECIAL && special_sleep_time_millis == 0) ||
        (event_type == SE_SPECIAL && special_sleep_time_millis >  0) ). -/
def assert_special_ok (event_type : Sleep_Event_Type)
    (special_sleep_time_millis : Int) : Bool :=
  decide ((event_type ≠ .SE_SPECIAL ∧ special_sleep_time_millis = 0) ∨
          (event_type = .SE_SPECIAL ∧ 0 < special_sleep_time_millis))

/-- The value of the local spec_sleep_time_millis after the switch at
tuned_sleep.c lines 118-185 (the I2C branch). -/
def spec_sleep_time_millis (event_type : Sleep_Event_Type)
    (special_sleep_time_millis : Int) : Int :=
  match event_type with
  | .SE_WRITE_TO_READ => DDC_TIMEOUT_MILLIS_DEFAULT
  | .SE_POST_WRITE => DDC_TIMEOUT_MILLIS_POST_NORMAL_COMMAND
  | .SE_POST_READ => DDC_TIMEOUT_MILLIS_POST_NORMAL_COMMAND
  | .SE_POST_SAVE_SETTINGS => DDC_TIMEOUT_MILLIS_POST_SAVE_SETTINGS
  | .SE_MULTI_PART_WRITE_TO_READ => DDC_TIMEOUT_MILLIS_DEFAULT
  | .SE_AFTER_EACH_CAP_TABLE_SEGMENT => DDC_TIMEOUT_MILLIS_BETWEEN_CAP_TABLE_FRAGMENTS
  | .SE_POST_CAP_TABLE_COMMAND => DDC_TIMEOUT_MILLIS_POST_CAP_TABLE_COMMAND
  | .SE_DDC_NULL => DDC_TIMEOUT_MILLIS_NULL_RESPONSE_INCREMENT
  | .SE_PRE_MULTI_PART_READ => 200
  | .SE_SPECIAL => special_sleep_time_millis

/-- The value of the local deferrable_sleep after the switch at
tuned_sleep.c lines 118-185: the cases for SE_POST_WRITE, SE_POST_READ,
SE_POST_SAVE_SETTINGS and SE_POST_CAP_TABLE_COMMAND assign the global
deferred_sleep_enabled flag; every other case leaves it false. -/
def deferrable_sleep (event_type : Sleep_Event_Type)
    (deferred_sleep_enabled : Bool) : Bool :=
  match event_type with
  | .SE_POST_WRITE => deferred_sleep_enabled
  | .SE_POST_READ => deferred_sleep_enabled
  | .SE_POST_SAVE_SETTINGS => deferred_sleep_enabled
  | .SE_POST_CAP_TABLE_COMMAND => deferred_sleep_enabled
  | _ => false

/-- The adjusted sleep time computed at tuned_sleep.c lines 210-235:
with dynamic sleep enabled,
cur_sleep_adjustment_factor * sleep_multiplier_factor * spec_ms;
otherwise sleep_multiplier_ct * sleep_multiplier_factor * spec_ms;
double arithmetic assigned to an int (truncation toward zero). -/
def adjusted_sleep_time_millis (tsd : Per_Thread_Data) (spec_ms : Int) : Int :=
  if tsd.dynamic_sleep_enabled then
    c_trunc_to_int (tsd.cur_sleep_adjustment_factor *
      tsd.sleep_multiplier_factor * (spec_ms : ℚ))
  else
    c_trunc_to_int ((tsd.sleep_multiplier_ct : ℚ) *
      tsd.sleep_multiplier_factor * (spec_ms : ℚ))

/-- The candidate deferred deadline computed at tuned_sleep.c lines
247-248: cur_realtime_nanosec() + (1000*1000) * adjusted, in uint64
arithmetic (the int product is converted to uint64 for the addition). -/
def new_deferred_time (now : Nat) (adjusted : Int) : Nat :=
  (((now : Int) + 1000000 * adjusted) % (UINT64_MOD : Int)).toNat

/-- tuned_sleep_with_trace (tuned_sleep.c lines 95-259), with the
global deferred_sleep_enabled flag, the per-thread sleep data and the
current realtime clock passed explicitly. Returns the outcome, or the
fatal termination: the assert on special_sleep_time_millis fires first;
then a USB io mode reaches PROGRAM_LOGIC_ERROR; otherwise the I2C delay
table, multiplier adjustment, and either the raise-only deferred-
deadline update (lines 246-253) or an immediate blocking sleep
(line 255). -/
def tuned_sleep_with_trace
    (deferred_sleep_enabled : Bool) (tsd : Per_Thread_Data)
    (dh : Display_Handle) (event_type : Sleep_Event_Type)
    (special_sleep_time_millis : Int) (now : Nat) :
    Except FatalErr SleepOutcome :=
  if assert_special_ok event_type special_sleep_time_millis then
    match dh.dref.io_path.io_mode with
    | .DDCA_IO_USB => .error .programLogicError
    | .DDCA_IO_I2C =>
      let spec_ms := spec_sleep_time_millis event_type special_sleep_time_millis
      let adjusted := adjusted_sleep_time_millis tsd spec_ms
      if deferrable_sleep event_type deferred_sleep_enabled then
        if new_deferred_time now adjusted > dh.dref.next_i2c_io_after then
          .ok ⟨new_deferred_time now adjusted, none⟩
        else
          .ok ⟨dh.dref.next_i2c_io_after, none⟩
      else
        .ok ⟨dh.dref.next_i2c_io_after, some adjusted⟩
  else
    .error .assertFailed

/-- I2C IO strategy ids (i2c_strategy_dispatcher.h lines 19-21):
currently only one option, the ioctl(I2C_RDWR) transport. -/
inductive I2C_IO_Strategy_Id
  | I2C_IO_STRATEGY_IOCTL
deriving DecidableEq, Repr

/-- Function type of an I2C write function (i2c_execute.h): file
descriptor, slave address, byte count, bytes to write; returns a
Status_Errno_DDC. -/
def I2C_Writer : Type := Int → Nat → Int → List Nat → Int

/-- Function type of an I2C read function (i2c_execute.h): file
descriptor, slave address, bytewise flag, byte count; returns a
Status_Errno_DDC together with the bytes stored into the caller-owned
read buffer. -/
def I2C_Reader : Type := Int → Nat → Bool → Int → Int × List Nat

/-- One I2C IO strategy (i2c_strategy_dispatcher.h lines 26-32). -/
structure I2C_IO_Strategy where
  strategy_id : I2C_IO_Strategy_Id
  i2c_writer : I2C_Writer
  i2c_reader : I2C_Reader
  i2c_writer_name : String
  i2c_reader_name : String

/-- The i2c_ioctl_io_strategy record (i2c_strategy_dispatcher.c lines
106-112). The bodies of i2c_ioctl_writer and i2c_ioctl_reader live in
i2c_execute.c, which is not in src; they are parameters here, which is
all the dispatcher claims need. -/
def i2c_ioctl_io_strategy (w : I2C_Writer) (r : I2C_Reader) :
    I2C_IO_Strategy :=
  ⟨.I2C_IO_STRATEGY_IOCTL, w, r, "ioctl_writer", "ioctl_reader"⟩

/-- i2c_set_io_strategy (i2c_strategy_dispatcher.c lines 122-132):
records the old id, switches the active strategy pointer (the only case
installs the ioctl strategy), and returns the old id. The process-wide
active-strategy pointer is passed and returned explicitly. -/
def i2c_set_io_strategy (w : I2C_Writer) (r : I2C_Reader)
    (i2c_io_strategy : I2C_IO_Strategy)
    (strategy_id : I2C_IO_Strategy_Id) :
    I2C_IO_Strategy_Id × I2C_IO_Strategy :=
  let old := i2c_io_strategy.strategy_id
  match strategy_id with
  | .I2C_IO_STRATEGY_IOCTL => (old, i2c_ioctl_io_strategy w r)

/-- i2c_get_io_strategy (i2c_strategy_dispatcher.c lines 135-138). -/
def i2c_get_io_strategy (i2c_io_strategy : I2C_IO_Strategy) :
    I2C_IO_Strategy_Id :=
  i2c_io_strategy.strategy_id

/-- invoke_i2c_writer (i2c_strategy_dispatcher.c lines 150-172): calls
the writer of the active strategy, then assert(rc <= 0); a positive rc
is a fatal assertion failure, otherwise rc is returned. -/
def invoke_i2c_writer (i2c_io_strategy : I2C_IO_Strategy)
    (fd : Int) (slave_address : Nat) (bytect : Int)
    (bytes_to_write : List Nat) : Except FatalErr Int :=
  if i2c_io_strategy.i2c_writer fd slave_address bytect bytes_to_write ≤ 0 then
    .ok (i2c_io_strategy.i2c_writer fd slave_address bytect bytes_to_write)
  else
    .error .assertFailed

/-- invoke_i2c_reader (i2c_strategy_dispatcher.c lines 185-211): calls
the reader of the active strategy, then assert(rc <= 0); a positive rc
is a fatal assertion failure, otherwise rc and the bytes placed in the
caller-owned buffer are returned. -/
def invoke_i2c_reader (i2c_io_strategy : I2C_IO_Strategy)
    (fd : Int) (slave_address : Nat) (read_bytewise : Bool)
    (bytect : Int) : Except FatalErr (Int × List Nat) :=
  if (i2c_io_strategy.i2c_reader fd slave_address read_bytewise bytect).1 ≤ 0 then
    .ok (i2c_io_strategy.i2c_reader fd slave_address read_bytewise bytect)
  else
    .error .assertFailed

/-- check_deferred_sleep (tuned_sleep.c lines 273-292): if the stored
next_i2c_io_after exceeds the current clock, sleep for
(next_i2c_io_after - curtime) / (1000*1000) milliseconds (uint64
division); otherwise do nothing. Returns the milliseconds slept, or
none when no sleep call is made. -/
def check_deferred_sleep (dh : Display_Handle) (curtime : Nat) : Option Int :=
  if dh.dref.next_i2c_io_after > curtime then
    some (((dh.dref.next_i2c_io_after - curtime) / (1000 * 1000) : Nat) : Int)
  else
    none

/-- The fixed per-event deferrability of the spec delay table (spec
section 4.2): exactly the four post-write / post-read /
post-save-settings / post-capability-table events are deferrable. -/
def deferrable_event_kind (event_type : Sleep_Event_Type) : Bool :=
  match event_type with
  | .SE_POST_WRITE => true
  | .SE_POST_READ => true
  | .SE_POST_SAVE_SETTINGS => true
  | .SE_POST_CAP_TABLE_COMMAND => true
  | _ => false

/-- The adjusted delay as the spec words it (section 4.2 step 4):
base times adjustment factor times global multiplier when dynamic
adjustment is enabled, else base times retry multiplier count times
global multiplier, truncated to integer milliseconds. -/
def spec_adjusted_delay (tsd : Per_Thread_Data) (base : Int) : Int :=
  if tsd.dynamic_sleep_enabled then
    c_trunc_to_int ((base : ℚ) * tsd.cur_sleep_adjustment_factor *
      tsd.sleep_multiplier_factor)
  else
    c_trunc_to_int ((base : ℚ) * (tsd.sleep_multiplier_ct : ℚ) *
      tsd.sleep_multiplier_factor)

/-- The display reference deadline resulting from a tuned_sleep call:
the stored next_i2c_io_after after the call (unchanged when the call
terminates fatally, since no store was executed). -/
def next_after_tuned_sleep (deferred_sleep_enabled : Bool)
    (tsd : Per_Thread_Data) (dh : Display_Handle)
    (event_type : Sleep_Event_Type) (special_sleep_time_millis : Int)
    (now : Nat) : Nat :=
  match tuned_sleep_with_trace deferred_sleep_enabled tsd dh event_type
      special_sleep_time_millis now with
  | .ok out => out.next_i2c_io_after
  | .error _ => dh.dref.next_i2c_io_after

/-- Replace the stored deferred deadline of a display handle. -/
def set_next_io_after (dh : Display_Handle) (t : Nat) : Display_Handle :=
  ⟨⟨dh.dref.io_path, t⟩⟩

/-- Arguments of one tuned_sleep call in a sequence of calls. -/
structure TunedSleepCall where
  tsd : Per_Thread_Data
  event_type : Sleep_Event_Type
  special_sleep_time_millis : Int
  now : Nat

/-- The stored deferred deadline after a sequence of tuned_sleep calls
against the same display reference. -/
def run_deferred_updates (deferred_sleep_enabled : Bool)
    (dh : Display_Handle) : List TunedSleepCall → Nat
  | [] => dh.dref.next_i2c_io_after
  | c :: rest =>
      run_deferred_updates deferred_sleep_enabled
        (set_next_io_after dh
          (next_after_tuned_sleep deferred_sleep_enabled c.tsd dh
            c.event_type c.special_sleep_time_millis c.now)) rest

lemma tuned_sleep_assert_fail (e : Bool) (tsd : Per_Thread_Data)
    (dh : Display_Handle) (et : Sleep_Event_Type) (sm : Int) (now : Nat)
    (hok : assert_special_ok et sm = false) :
    tuned_sleep_with_trace e tsd dh et sm now = .error .assertFailed := by
  simp [tuned_sleep_with_trace, hok]

lemma tuned_sleep_usb (e : Bool) (tsd : Per_Thread_Data)
    (dh : Display_Handle) (et : Sleep_Event_Type) (sm : Int) (now : Nat)
    (hio : dh.dref.io_path.io_mode = .DDCA_IO_USB)
    (hok : assert_special_ok et sm = true) :
    tuned_sleep_with_trace e tsd dh et sm now = .error .programLogicError := by
  simp [tuned_sleep_with_trace, hok, hio]

lemma tuned_sleep_i2c_eq (e : Bool) (tsd : Per_Thread_Data)
    (dh : Display_Handle) (et : Sleep_Event_Type) (sm : Int) (now : Nat)
    (hio : dh.dref.io_path.io_mode = .DDCA_IO_I2C)
    (hok : assert_special_ok et sm = true) :
    tuned_sleep_with_trace e tsd dh et sm now =
      (if deferrable_sleep et e then
        (if new_deferred_time now
              (adjusted_sleep_time_millis tsd (spec_sleep_time_millis et sm)) >
            dh.dref.next_i2c_io_after then
          .ok ⟨new_deferred_time now
                (adjusted_sleep_time_millis tsd (spec_sleep_time_millis et sm)),
              none⟩
        else
          .ok ⟨dh.dref.next_i2c_io_after, none⟩)
      else
        .ok ⟨dh.dref.next_i2c_io_after,
            some (adjusted_sleep_time_millis tsd (spec_sleep_time_millis et sm))⟩) := by
  simp [tuned_sleep_with_trace, hok, hio]

lemma deferrable_sleep_eq_kind (et : Sleep_Event_Type) (e : Bool) :
    deferrable_sleep et e = (deferrable_event_kind et && e) := by
  cases et <;> cases e <;> rfl

lemma next_after_ge (e : Bool) (tsd : Per_Thread_Data)
    (dh : Display_Handle) (et : Sleep_Event_Type) (sm : Int) (now : Nat) :
    dh.dref.next_i2c_io_after ≤ next_after_tuned_sleep e tsd dh et sm now := by
  unfold next_after_tuned_sleep
  cases hok : assert_special_ok et sm with
  | false => rw [tuned_sleep_assert_fail e tsd dh et sm now hok]
  | true =>
    cases hio : dh.dref.io_path.io_mode with
    | DDCA_IO_USB => rw [tuned_sleep_usb e tsd dh et sm now hio hok]
    | DDCA_IO_I2C =>
      rw [tuned_sleep_i2c_eq e tsd dh et sm now hio hok]
      by_cases hdef : deferrable_sleep et e = true
      · rw [if_pos hdef]
        by_cases hcmp : new_deferred_time now
            (adjusted_sleep_time_millis tsd (spec_sleep_time_millis et sm)) >
            dh.dref.next_i2c_io_after
        · rw [if_pos hcmp]; exact le_of_lt hcmp
        · rw [if_neg hcmp]
      · rw [if_neg hdef]

lemma run_deferred_updates_ge (e : Bool) (calls : List TunedSleepCall) :
    ∀ dh : Display_Handle,
      dh.dref.next_i2c_io_after ≤ run_deferred_updates e dh calls := by
  induction calls with
  | nil => intro dh; exact le_refl _
  | cons c rest ih =>
    intro dh
    show dh.dref.next_i2c_io_after ≤
      run_deferred_updates e
        (set_next_io_after dh (next_after_tuned_sleep e c.tsd dh
          c.event_type c.special_sleep_time_millis c.now)) rest
    exact le_trans (next_after_ge e c.tsd dh c.event_type
      c.special_sleep_time_millis c.now)
      (ih (set_next_io_after dh (next_after_tuned_sleep e c.tsd dh
        c.event_type c.special_sleep_time_millis c.now)))

/-- C9: selecting a strategy and then querying the current strategy
returns the just-selected id, and the value returned by
i2c_set_io_strategy equals whatever i2c_get_io_strategy would have
returned immediately before the call. -/
theorem i2c_strategy_round_trip :
    ∀ (w : I2C_Writer) (r : I2C_Reader) (cur : I2C_IO_Strategy)
      (sid : I2C_IO_Strategy_Id),
      i2c_get_io_strategy (i2c_set_io_strategy w r cur sid).2 = sid ∧
      (i2c_set_io_strategy w r cur sid).1 = i2c_get_io_strategy cur := by
  intro w r cur sid
  cases sid
  exact ⟨rfl, rfl⟩

/-- C3: invoke_i2c_writer and invoke_i2c_reader never return a positive
status: an ok result is nonpositive, and a strategy implementation
returning a positive value is a fatal assertion failure. -/
theorem invoke_i2c_status_nonpositive :
    ∀ (s : I2C_IO_Strategy) (fd : Int) (slave_address : Nat)
      (bytect : Int) (bytes_to_write : List Nat) (read_bytewise : Bool),
      (∀ rc : Int,
        invoke_i2c_writer s fd slave_address bytect bytes_to_write = .ok rc →
          rc ≤ 0) ∧
      (0 < s.i2c_writer fd slave_address bytect bytes_to_write →
        invoke_i2c_writer s fd slave_address bytect bytes_to_write =
          .error .assertFailed) ∧
      (∀ (rc : Int) (readbuf : List Nat),
        invoke_i2c_reader s fd slave_address read_bytewise bytect =
            .ok (rc, readbuf) → rc ≤ 0) ∧
      (0 < (s.i2c_reader fd slave_address read_bytewise bytect).1 →
        invoke_i2c_reader s fd slave_address read_bytewise bytect =
          .error .assertFailed) := by
  intro s fd sa ct bw rbw
  refine ⟨?_, ?_, ?_, ?_⟩
  · intro rc h
    unfold invoke_i2c_writer at h
    split at h
    · next hle =>
      injection h with h2
      rw [← h2]
      exact hle
    · exact Except.noConfusion h
  · intro hpos
    unfold invoke_i2c_writer
    rw [if_neg (not_le.mpr hpos)]
  · intro rc readbuf h
    unfold invoke_i2c_reader at h
    split at h
    · next hle =>
      injection h with h2
      rw [h2] at hle
      exact hle
    · exact Except.noConfusion h
  · intro hpos
    unfold invoke_i2c_reader
    rw [if_neg (not_le.mpr hpos)]

/-- Witness for C3: a strategy writer returning +1 trips the assertion,
and a writer returning -5 propagates the nonpositive code unchanged. -/
theorem invoke_i2c_status_nonpositive_witness :
    (0 : Int) < 1 ∧
    invoke_i2c_writer
      (i2c_ioctl_io_strategy (fun _ _ _ _ => 1) (fun _ _ _ _ => (1, [])))
      3 55 2 [1, 2] = .error .assertFailed ∧
    (-5 : Int) ≤ 0 := by
  refine ⟨by norm_num, ?_, ?_⟩
  · exact (invoke_i2c_status_nonpositive
      (i2c_ioctl_io_strategy (fun _ _ _ _ => 1) (fun _ _ _ _ => (1, [])))
      3 55 2 [1, 2] false).2.1 (by norm_num [i2c_ioctl_io_strategy])
  · exact (invoke_i2c_status_nonpositive
      (i2c_ioctl_io_strategy (fun _ _ _ _ => -5) (fun _ _ _ _ => (0, [])))
      3 55 2 [1, 2] false).1 (-5) rfl

/-- C7: tuned_sleep fails its precondition assert exactly when
special_sleep_time_millis is nonzero for a non-special event or
nonpositive for the special event; every valid combination passes. -/
theorem special_millis_precondition_iff :
    ∀ (e : Bool) (tsd : Per_Thread_Data) (dh : Display_Handle)
      (et : Sleep_Event_Type) (sm : Int) (now : Nat),
      tuned_sleep_with_trace e tsd dh et sm now = .error .assertFailed ↔
        ¬ ((et ≠ .SE_SPECIAL ∧ sm = 0) ∨ (et = .SE_SPECIAL ∧ 0 < sm)) := by
  intro e tsd dh et sm now
  cases hok : assert_special_ok et sm with
  | false =>
    have hnot : ¬ ((et ≠ .SE_SPECIAL ∧ sm = 0) ∨ (et = .SE_SPECIAL ∧ 0 < sm)) := by
      unfold assert_special_ok at hok
      exact of_decide_eq_false hok
    exact ⟨fun _ => hnot,
      fun _ => tuned_sleep_assert_fail e tsd dh et sm now hok⟩
  | true =>
    have hprop : (et ≠ .SE_SPECIAL ∧ sm = 0) ∨ (et = .SE_SPECIAL ∧ 0 < sm) := by
      unfold assert_special_ok at hok
      exact of_decide_eq_true hok
    have hne : tuned_sleep_with_trace e tsd dh et sm now ≠
        .error .assertFailed := by
      cases hio : dh.dref.io_path.io_mode with
      | DDCA_IO_USB =>
        rw [tuned_sleep_usb e tsd dh et sm now hio hok]
        simp
      | DDCA_IO_I2C =>
        rw [tuned_sleep_i2c_eq e tsd dh et sm now hio hok]
        split
        · split <;> simp
        · simp
    exact ⟨fun h => absurd h hne, fun h => absurd hprop h⟩

/-- C6: the delay table of tuned_sleep: write-to-read 50 ms
non-deferrable, post normal write 50 ms deferrable, post read 50 ms
deferrable, post save-settings 200 ms deferrable, multi-part
write-to-read 50 ms non-deferrable, between capability-table fragments
50 ms non-deferrable, post capability-table command 50 ms deferrable,
pre multi-part read 200 ms non-deferrable, and the special event uses
the caller-supplied delay, non-deferrable; an event is actually
deferred exactly when its kind is deferrable and the global flag is on. -/
theorem sleep_delay_table_spec :
    (spec_sleep_time_millis .SE_WRITE_TO_READ 0 = 50 ∧
      deferrable_event_kind .SE_WRITE_TO_READ = false) ∧
    (spec_sleep_time_millis .SE_POST_WRITE 0 = 50 ∧
      deferrable_event_kind .SE_POST_WRITE = true) ∧
    (spec_sleep_time_millis .SE_POST_READ 0 = 50 ∧
      deferrable_event_kind .SE_POST_READ = true) ∧
    (spec_sleep_time_millis .SE_POST_SAVE_SETTINGS 0 = 200 ∧
      deferrable_event_kind .SE_POST_SAVE_SETTINGS = true) ∧
    (spec_sleep_time_millis .SE_MULTI_PART_WRITE_TO_READ 0 = 50 ∧
      deferrable_event_kind .SE_MULTI_PART_WRITE_TO_READ = false) ∧
    (spec_sleep_time_millis .SE_AFTER_EACH_CAP_TABLE_SEGMENT 0 = 50 ∧
      deferrable_event_kind .SE_AFTER_EACH_CAP_TABLE_SEGMENT = false) ∧
    (spec_sleep_time_millis .SE_POST_CAP_TABLE_COMMAND 0 = 50 ∧
      deferrable_event_kind .SE_POST_CAP_TABLE_COMMAND = true) ∧
    (spec_sleep_time_millis .SE_PRE_MULTI_PART_READ 0 = 200 ∧
      deferrable_event_kind .SE_PRE_MULTI_PART_READ = false) ∧
    ((∀ sm : Int, spec_sleep_time_millis .SE_SPECIAL sm = sm) ∧
      deferrable_event_kind .SE_SPECIAL = false) ∧
    (∀ (et : Sleep_Event_Type) (e : Bool),
      deferrable_sleep et e = (deferrable_event_kind et && e)) :=
  ⟨⟨rfl, rfl⟩, ⟨rfl, rfl⟩, ⟨rfl, rfl⟩, ⟨rfl, rfl⟩, ⟨rfl, rfl⟩, ⟨rfl, rfl⟩,
   ⟨rfl, rfl⟩, ⟨rfl, rfl⟩, ⟨fun _ => rfl, rfl⟩, deferrable_sleep_eq_kind⟩

lemma next_after_cases (e : Bool) (tsd : Per_Thread_Data)
    (dh : Display_Handle) (et : Sleep_Event_Type) (sm : Int) (now : Nat) :
    next_after_tuned_sleep e tsd dh et sm now = dh.dref.next_i2c_io_after ∨
      (dh.dref.next_i2c_io_after <
        new_deferred_time now
          (adjusted_sleep_time_millis tsd (spec_sleep_time_millis et sm)) ∧
       next_after_tuned_sleep e tsd dh et sm now =
        new_deferred_time now
          (adjusted_sleep_time_millis tsd (spec_sleep_time_millis et sm))) := by
  unfold next_after_tuned_sleep
  cases hok : assert_special_ok et sm with
  | false =>
    rw [tuned_sleep_assert_fail e tsd dh et sm now hok]
    exact Or.inl rfl
  | true =>
    cases hio : dh.dref.io_path.io_mode with
    | DDCA_IO_USB =>
      rw [tuned_sleep_usb e tsd dh et sm now hio hok]
      exact Or.inl rfl
    | DDCA_IO_I2C =>
      rw [tuned_sleep_i2c_eq e tsd dh et sm now hio hok]
      by_cases hdef : deferrable_sleep et e = true
      · rw [if_pos hdef]
        by_cases hcmp : new_deferred_time now
            (adjusted_sleep_time_millis tsd (spec_sleep_time_millis et sm)) >
            dh.dref.next_i2c_io_after
        · rw [if_pos hcmp]
          exact Or.inr ⟨hcmp, rfl⟩
        · rw [if_neg hcmp]
          exact Or.inl rfl
      · rw [if_neg hdef]
        exact Or.inl rfl

/-- C1: the stored next_i2c_io_after is raise-only: a tuned_sleep call
never lowers it, it is changed only to a candidate strictly above the
stored value, a candidate not above the stored value leaves it
unchanged, and it never decreases across any sequence of calls. -/
theorem next_i2c_io_after_raise_only
    (e : Bool) (tsd : Per_Thread_Data) (dh : Display_Handle)
    (et : Sleep_Event_Type) (sm : Int) (now : Nat) :
    dh.dref.next_i2c_io_after ≤ next_after_tuned_sleep e tsd dh et sm now ∧
    (next_after_tuned_sleep e tsd dh et sm now = dh.dref.next_i2c_io_after ∨
      (dh.dref.next_i2c_io_after <
        new_deferred_time now
          (adjusted_sleep_time_millis tsd (spec_sleep_time_millis et sm)) ∧
       next_after_tuned_sleep e tsd dh et sm now =
        new_deferred_time now
          (adjusted_sleep_time_millis tsd (spec_sleep_time_millis et sm)))) ∧
    (new_deferred_time now
        (adjusted_sleep_time_millis tsd (spec_sleep_time_millis et sm)) ≤
        dh.dref.next_i2c_io_after →
      next_after_tuned_sleep e tsd dh et sm now = dh.dref.next_i2c_io_after) ∧
    (∀ calls : List TunedSleepCall,
      dh.dref.next_i2c_io_after ≤ run_deferred_updates e dh calls) := by
  refine ⟨next_after_ge e tsd dh et sm now,
    next_after_cases e tsd dh et sm now, ?_,
    fun calls => run_deferred_updates_ge e calls dh⟩
  intro hle
  rcases next_after_cases e tsd dh et sm now with h | ⟨hlt, _⟩
  · exact h
  · exact absurd hle (not_le.mpr hlt)

/-- Witness for C1: with multiplier count 0 the candidate deadline is
0, below the pending deadline 5, and the stored value stays 5. -/
theorem next_i2c_io_after_raise_only_witness :
    new_deferred_time 0
      (adjusted_sleep_time_millis ⟨false, 1, 1, 0⟩
        (spec_sleep_time_millis .SE_POST_WRITE 0)) ≤ 5 ∧
    next_after_tuned_sleep true ⟨false, 1, 1, 0⟩ ⟨⟨⟨.DDCA_IO_I2C⟩, 5⟩⟩
      .SE_POST_WRITE 0 0 = 5 := by
  have hcand : new_deferred_time 0
      (adjusted_sleep_time_millis ⟨false, 1, 1, 0⟩
        (spec_sleep_time_millis .SE_POST_WRITE 0)) ≤ 5 := by
    norm_num [new_deferred_time, adjusted_sleep_time_millis, c_trunc_to_int,
      spec_sleep_time_millis, DDC_TIMEOUT_MILLIS_POST_NORMAL_COMMAND,
      UINT64_MOD]
  exact ⟨hcand, (next_i2c_io_after_raise_only true ⟨false, 1, 1, 0⟩
    ⟨⟨⟨.DDCA_IO_I2C⟩, 5⟩⟩ .SE_POST_WRITE 0 0).2.2.1 hcand⟩

/-- C2: a deferrable tuned_sleep call never blocks; the deadline is
only raised, and to at most the maximum of the pending deadline and
now plus the adjusted delay in nanoseconds. -/
theorem deferrable_sleep_never_blocks
    (e : Bool) (tsd : Per_Thread_Data) (dh : Display_Handle)
    (et : Sleep_Event_Type) (sm : Int) (now : Nat)
    (hio : dh.dref.io_path.io_mode = .DDCA_IO_I2C)
    (hok : assert_special_ok et sm = true)
    (hdef : deferrable_sleep et e = true) :
    ∃ out : SleepOutcome,
      tuned_sleep_with_trace e tsd dh et sm now = .ok out ∧
      out.slept_millis = none ∧
      dh.dref.next_i2c_io_after ≤ out.next_i2c_io_after ∧
      out.next_i2c_io_after ≤
        max dh.dref.next_i2c_io_after
          (new_deferred_time now
            (adjusted_sleep_time_millis tsd (spec_sleep_time_millis et sm))) := by
  rw [tuned_sleep_i2c_eq e tsd dh et sm now hio hok, if_pos hdef]
  by_cases hcmp : new_deferred_time now
      (adjusted_sleep_time_millis tsd (spec_sleep_time_millis et sm)) >
      dh.dref.next_i2c_io_after
  · rw [if_pos hcmp]
    exact ⟨_, rfl, rfl, le_of_lt hcmp, le_max_right _ _⟩
  · rw [if_neg hcmp]
    exact ⟨_, rfl, rfl, le_refl _, le_max_left _ _⟩

/-- Witness for C2: a deferrable post-read event on an I2C handle. -/
theorem deferrable_sleep_never_blocks_witness :
    (⟨⟨⟨.DDCA_IO_I2C⟩, 5⟩⟩ : Display_Handle).dref.io_path.io_mode =
      .DDCA_IO_I2C ∧
    assert_special_ok .SE_POST_READ 0 = true ∧
    deferrable_sleep .SE_POST_READ true = true ∧
    ∃ out : SleepOutcome,
      tuned_sleep_with_trace true ⟨false, 1, 1, 0⟩
        ⟨⟨⟨.DDCA_IO_I2C⟩, 5⟩⟩ .SE_POST_READ 0 0 = .ok out ∧
      out.slept_millis = none ∧
      5 ≤ out.next_i2c_io_after ∧
      out.next_i2c_io_after ≤
        max 5 (new_deferred_time 0
          (adjusted_sleep_time_millis ⟨false, 1, 1, 0⟩
            (spec_sleep_time_millis .SE_POST_READ 0))) :=
  ⟨rfl, by decide, rfl,
   deferrable_sleep_never_blocks true ⟨false, 1, 1, 0⟩
     ⟨⟨⟨.DDCA_IO_I2C⟩, 5⟩⟩ .SE_POST_READ 0 0 rfl (by decide) rfl⟩

/-- C5: the adjusted delay equals base times the dynamic adjustment
factor times the global multiplier when dynamic adjustment is enabled,
else base times the retry multiplier count times the global multiplier,
truncated to integer milliseconds; a non-deferrable call blocks for
exactly that amount. -/
theorem adjusted_delay_formula :
    (∀ (tsd : Per_Thread_Data) (base : Int),
      adjusted_sleep_time_millis tsd base = spec_adjusted_delay tsd base) ∧
    (∀ (e : Bool) (tsd : Per_Thread_Data) (dh : Display_Handle)
       (et : Sleep_Event_Type) (sm : Int) (now : Nat),
      dh.dref.io_path.io_mode = .DDCA_IO_I2C →
      assert_special_ok et sm = true →
      deferrable_sleep et e = false →
      tuned_sleep_with_trace e tsd dh et sm now =
        .ok ⟨dh.dref.next_i2c_io_after,
             some (spec_adjusted_delay tsd (spec_sleep_time_millis et sm))⟩) := by
  have key : ∀ (tsd : Per_Thread_Data) (base : Int),
      adjusted_sleep_time_millis tsd base = spec_adjusted_delay tsd base := by
    intro tsd base
    unfold adjusted_sleep_time_millis spec_adjusted_delay
    by_cases hd : tsd.dynamic_sleep_enabled = true
    · rw [if_pos hd, if_pos hd]
      congr 1
      ring
    · rw [if_neg hd, if_neg hd]
      congr 1
      ring
  refine ⟨key, ?_⟩
  intro e tsd dh et sm now hio hok hdef
  rw [tuned_sleep_i2c_eq e tsd dh et sm now hio hok,
    if_neg (by simp [hdef]), key tsd (spec_sleep_time_millis et sm)]

/-- Witness for C5: a non-deferrable write-to-read turnaround blocks
for the spec-worded adjusted delay. -/
theorem adjusted_delay_formula_witness :
    (⟨⟨⟨.DDCA_IO_I2C⟩, 0⟩⟩ : Display_Handle).dref.io_path.io_mode =
      .DDCA_IO_I2C ∧
    assert_special_ok .SE_WRITE_TO_READ 0 = true ∧
    deferrable_sleep .SE_WRITE_TO_READ false = false ∧
    tuned_sleep_with_trace false ⟨false, 1, 1, 1⟩ ⟨⟨⟨.DDCA_IO_I2C⟩, 0⟩⟩
      .SE_WRITE_TO_READ 0 0 =
      .ok ⟨0, some (spec_adjusted_delay ⟨false, 1, 1, 1⟩
            (spec_sleep_time_millis .SE_WRITE_TO_READ 0))⟩ :=
  ⟨rfl, by decide, rfl,
   adjusted_delay_formula.2 false ⟨false, 1, 1, 1⟩ ⟨⟨⟨.DDCA_IO_I2C⟩, 0⟩⟩
     .SE_WRITE_TO_READ 0 0 rfl (by decide) rfl⟩

/-- C8: a USB io mode never reaches the delay-table path: every call
terminates fatally, with PROGRAM_LOGIC_ERROR whenever the preceding
assert passes; under an I2C io mode that fatal branch is unreachable. -/
theorem usb_io_mode_fatal :
    ∀ (e : Bool) (tsd : Per_Thread_Data) (dh : Display_Handle)
      (et : Sleep_Event_Type) (sm : Int) (now : Nat),
      (dh.dref.io_path.io_mode = .DDCA_IO_USB →
        (∃ err, tuned_sleep_with_trace e tsd dh et sm now = .error err) ∧
        (assert_special_ok et sm = true →
          tuned_sleep_with_trace e tsd dh et sm now =
            .error .programLogicError)) ∧
      (dh.dref.io_path.io_mode = .DDCA_IO_I2C →
        tuned_sleep_with_trace e tsd dh et sm now ≠
          .error .programLogicError) := by
  intro e tsd dh et sm now
  constructor
  · intro hio
    constructor
    · cases hok : assert_special_ok et sm with
      | false => exact ⟨_, tuned_sleep_assert_fail e tsd dh et sm now hok⟩
      | true => exact ⟨_, tuned_sleep_usb e tsd dh et sm now hio hok⟩
    · intro hok
      exact tuned_sleep_usb e tsd dh et sm now hio hok
  · intro hio
    cases hok : assert_special_ok et sm with
    | false =>
      rw [tuned_sleep_assert_fail e tsd dh et sm now hok]
      simp
    | true =>
      rw [tuned_sleep_i2c_eq e tsd dh et sm now hio hok]
      split
      · split <;> simp
      · simp

/-- Witness for C8: a USB handle terminates with PROGRAM_LOGIC_ERROR,
an I2C handle never does. -/
theorem usb_io_mode_fatal_witness :
    tuned_sleep_with_trace true ⟨false, 1, 1, 1⟩ ⟨⟨⟨.DDCA_IO_USB⟩, 0⟩⟩
      .SE_WRITE_TO_READ 0 0 = .error .programLogicError ∧
    tuned_sleep_with_trace true ⟨false, 1, 1, 1⟩ ⟨⟨⟨.DDCA_IO_I2C⟩, 0⟩⟩
      .SE_WRITE_TO_READ 0 0 ≠ .error .programLogicError :=
  ⟨((usb_io_mode_fatal true ⟨false, 1, 1, 1⟩ ⟨⟨⟨.DDCA_IO_USB⟩, 0⟩⟩
      .SE_WRITE_TO_READ 0 0).1 rfl).2 (by decide),
   (usb_io_mode_fatal true ⟨false, 1, 1, 1⟩ ⟨⟨⟨.DDCA_IO_I2C⟩, 0⟩⟩
      .SE_WRITE_TO_READ 0 0).2 rfl⟩

/-- C10: tuned_sleep changes next_i2c_io_after only for a deferrable
event kind with the global deferred-sleep flag on (the flag starts
false); in every other completed case the field is unchanged and the
wait is an immediate blocking sleep of the adjusted delay. -/
theorem deferred_deadline_frame_condition :
    ∀ (e : Bool) (tsd : Per_Thread_Data) (dh : Display_Handle)
      (et : Sleep_Event_Type) (sm : Int) (now : Nat),
      deferred_sleep_enabled_init = false ∧
      (dh.dref.io_path.io_mode = .DDCA_IO_I2C →
       assert_special_ok et sm = true →
        ((next_after_tuned_sleep e tsd dh et sm now ≠
            dh.dref.next_i2c_io_after →
          deferrable_event_kind et = true ∧ e = true) ∧
         (deferrable_event_kind et = false ∨ e = false →
          tuned_sleep_with_trace e tsd dh et sm now =
            .ok ⟨dh.dref.next_i2c_io_after,
                 some (adjusted_sleep_time_millis tsd
                   (spec_sleep_time_millis et sm))⟩))) := by
  intro e tsd dh et sm now
  refine ⟨rfl, ?_⟩
  intro hio hok
  constructor
  · by_cases hdef : deferrable_sleep et e = true
    · rw [deferrable_sleep_eq_kind] at hdef
      intro _
      exact ⟨(Bool.and_eq_true _ _ |>.mp hdef).1,
             (Bool.and_eq_true _ _ |>.mp hdef).2⟩
    · intro hne
      exfalso
      apply hne
      unfold next_after_tuned_sleep
      rw [tuned_sleep_i2c_eq e tsd dh et sm now hio hok, if_neg hdef]
  · intro hor
    have hdef : deferrable_sleep et e = false := by
      rw [deferrable_sleep_eq_kind]
      rcases hor with h | h <;> simp [h]
    rw [tuned_sleep_i2c_eq e tsd dh et sm now hio hok,
      if_neg (by simp [hdef])]

/-- Witness for C10: with the flag off, a post-write event leaves the
deadline unchanged and performs an immediate blocking sleep. -/
theorem deferred_deadline_frame_condition_witness :
    deferred_sleep_enabled_init = false ∧
    tuned_sleep_with_trace false ⟨false, 1, 1, 1⟩ ⟨⟨⟨.DDCA_IO_I2C⟩, 0⟩⟩
      .SE_POST_WRITE 0 0 =
      .ok ⟨0, some (adjusted_sleep_time_millis ⟨false, 1, 1, 1⟩
            (spec_sleep_time_millis .SE_POST_WRITE 0))⟩ :=
  ⟨(deferred_deadline_frame_condition false ⟨false, 1, 1, 1⟩
      ⟨⟨⟨.DDCA_IO_I2C⟩, 0⟩⟩ .SE_POST_WRITE 0 0).1,
   ((deferred_deadline_frame_condition false ⟨false, 1, 1, 1⟩
      ⟨⟨⟨.DDCA_IO_I2C⟩, 0⟩⟩ .SE_POST_WRITE 0 0).2 rfl (by decide)).2
      (Or.inr rfl)⟩

/-- C4 counterexample: with next_i2c_io_after 1500000 ns (1.5 ms) in
the future and the clock at 0, the code sleeps 1 ms, which is not
exactly the remaining duration of 1500000 ns. -/
theorem check_deferred_exact_remaining_counterexample :
    check_deferred_sleep ⟨⟨⟨.DDCA_IO_I2C⟩, 1500000⟩⟩ 0 = some 1 ∧
    (1 : Int) * 1000000 ≠ ((1500000 - 0 : Nat) : Int) :=
  ⟨by decide, by decide⟩

/-- C4 amended: check_deferred_sleep with a deadline at or before now
performs no sleep; with the deadline strictly in the future, it sleeps
for the remaining duration truncated to whole milliseconds,
(next_i2c_io_after - now) / 1000000. -/
theorem check_deferred_sleep_truncated_remaining :
    ∀ (dh : Display_Handle) (curtime : Nat),
      (dh.dref.next_i2c_io_after ≤ curtime →
        check_deferred_sleep dh curtime = none) ∧
      (curtime < dh.dref.next_i2c_io_after →
        check_deferred_sleep dh curtime =
          some (((dh.dref.next_i2c_io_after - curtime) / (1000 * 1000) : Nat) :
            Int)) := by
  intro dh curtime
  constructor
  · intro hle
    unfold check_deferred_sleep
    rw [if_neg (not_lt.mpr hle)]
  · intro hlt
    unfold check_deferred_sleep
    rw [if_pos hlt]

/-- Witness for C4 amended: a deadline 1.5 ms in the future sleeps for
1 ms. -/
theorem check_deferred_sleep_truncated_remaining_witness :
    0 < 1500000 ∧
    check_deferred_sleep ⟨⟨⟨.DDCA_IO_I2C⟩, 1500000⟩⟩ 0 =
      some (((1500000 - 0 : Nat) / (1000 * 1000) : Nat) : Int) :=
  ⟨by decide,
   (check_deferred_sleep_truncated_remaining ⟨⟨⟨.DDCA_IO_I2C⟩, 1500000⟩⟩ 0).2
     (by decide)⟩

end Ddcutil
